import Mathlib

/-!
Shallow embedding of the EmailEngine SMTP worker (src/workers/smtp.js):
the RPC bridge (call, the parent-port message handler, the pending-call
table), the message pipeline (processMessage with the HeadersRewriter
stage), account resolution (checkAccountData with the session account
cache), the data-submission end-of-stream handler (onData), and the
per-connection reconciliation of the disabled-command list (onConnect).

JavaScript idioms are made explicit: string truthiness is nonemptiness,
number truthiness is nonzeroness, absent object fields are `Option`,
thrown errors become error constructors of a result type, and the
side effects the claims mention (caching, logging, posting messages,
settling promises) are returned as explicit components of each result.
-/

namespace SmtpWorker

/-- Truthiness of an optional JS string value: present and nonempty. -/
def strTruthy : Option String → Bool
  | none => false
  | some s => !(s == "")

/-- Truthiness of an optional JS number value: present and nonzero. -/
def natTruthy : Option Nat → Bool
  | none => false
  | some n => !(n == 0)

/-! ## Message pipeline (processMessage, lines 124-141) -/

/-- One RFC822 header line, as exposed by the mailsplit Headers object. -/
structure Header where
  key : String
  value : String
deriving DecidableEq

/-- A parsed message: the header block plus the (opaque) remaining parts.
The Splitter and Joiner stages are inverses; only the HeadersRewriter
stage changes anything, so a message is modelled as its headers plus
everything else reassembled verbatim. -/
structure MimeMessage where
  headers : List Header
  body : String
deriving DecidableEq

/-- The out-of-band meta object threaded through processMessage. -/
structure MessageMeta where
  requestedAccount : Option String
deriving DecidableEq

/-- The fresh meta object created per submission in onData (line 232). -/
def emptyMeta : MessageMeta := { requestedAccount := none }

/-- The reserved routing header name consumed by the rewriter. -/
def eeAccountHeader : String := "x-ee-account"

/-- ASCII lowercasing of one character, as JS toLowerCase acts on the
header-name alphabet. -/
def lowerChar (c : Char) : Char :=
  if 65 ≤ c.toNat ∧ c.toNat ≤ 90 then Char.ofNat (c.toNat + 32) else c

/-- Whether a header key names the routing header; mailsplit matches
header keys case-insensitively (the key is lowercased and compared). -/
def headerKeyMatches (key : String) : Bool :=
  key.toList.map lowerChar == eeAccountHeader.toList

/-- headers.getFirst of the routing header: value of the first matching
header line, or the empty string when none matches. -/
def getFirst (headers : List Header) : String :=
  match headers.find? (fun h => headerKeyMatches h.key) with
  | some h => h.value
  | none => ""

/-- headers.remove of the routing header: drops every matching line. -/
def removeEeAccount (headers : List Header) : List Header :=
  headers.filter (fun h => !headerKeyMatches h.key)

/-- processMessage: the HeadersRewriter captures the first value of the
routing header, removes every occurrence of the header, and records the
captured value on the meta object only when it is truthy (nonempty);
the Joiner reassembles everything else unchanged. -/
def processMessage (msg : MimeMessage) (meta : MessageMeta) :
    MimeMessage × MessageMeta :=
  let requestedAccount := getFirst msg.headers
  let outHeaders := removeEeAccount msg.headers
  let outMeta :=
    if requestedAccount != "" then { meta with requestedAccount := some requestedAccount }
    else meta
  ({ headers := outHeaders, body := msg.body }, outMeta)

/-! ## Account resolution (checkAccountData, lines 143-177) -/

/-- An account handle: the Account object constructed around an account
identifier (plus the RPC capability and secret, which carry no state
relevant to the claims). -/
structure AccountHandle where
  account : String
deriving DecidableEq

/-- Outcome of the external accountObject.loadAccountData() call:
returns data, returns nothing falsy, or throws. -/
inductive LoadResult
  | ok
  | nodata
  | failed
deriving DecidableEq

/-- Result of checkAccountData: the returned handle or the thrown error
(with its responseCode), plus the session cache entry after the call and
the log lines emitted. -/
inductive CheckOutcome
  | ok (handle : AccountHandle)
  | err (message : String) (responseCode : Nat)
deriving DecidableEq

structure CheckResult where
  outcome : CheckOutcome
  cache : Option AccountHandle
  logs : List String
deriving DecidableEq

/-- checkAccountData: with authentication disabled and a truthy
requestedAccount, an Account object for the requested identifier is
constructed first, then loadAccountData is attempted; only a successful
load with data caches the handle (a thrown load only logs). Otherwise
the cached handle is looked up. The two thrown errors follow. Note the
constructed handle itself outlives a failed load, because the
assignment precedes the try block in the source. -/
def checkAccountData (load : String → LoadResult) (eeAuthEnabled : Bool)
    (cache : Option AccountHandle) (meta : MessageMeta) : CheckResult :=
  let step : Option AccountHandle × Option AccountHandle × List String :=
    if !eeAuthEnabled && strTruthy meta.requestedAccount then
      let acct := meta.requestedAccount.getD ""
      match load acct with
      | .ok => (some { account := acct }, some { account := acct }, ["Resolved requested account"])
      | .nodata => (some { account := acct }, cache, [])
      | .failed => (some { account := acct }, cache, ["Failed resolving requested account"])
    else (cache, cache, [])
  match step with
  | (accountObject, cacheAfter, logs) =>
    if !eeAuthEnabled && !strTruthy meta.requestedAccount && accountObject.isNone then
      { outcome := .err "Sender account ID not provided, can not send mail" 451,
        cache := cacheAfter, logs := logs }
    else
      match accountObject with
      | none => { outcome := .err "Failed to load account" 451, cache := cacheAfter, logs := logs }
      | some handle => { outcome := .ok handle, cache := cacheAfter, logs := logs }

/-! ## RPC bridge (call lines 37-59, parent-port handler lines 328-366) -/

/-- An inbound message on the parent port. All fields are optional, as
any shape can arrive on the channel. Payloads are kept opaque strings. -/
structure InMessage where
  cmd : Option String
  mid : Option String
  response : Option String
  error : Option String
  code : Option String
  statusCode : Option Nat
deriving DecidableEq

/-- A message posted back to the parent by the handler. -/
structure OutMessage where
  cmd : String
  mid : String
  response : Option String
  error : Option String
  code : Option String
  statusCode : Option Nat
deriving DecidableEq

/-- How a pending call promise is settled. -/
inductive Settlement
  | resolved (response : Option String)
  | rejected (message : String) (code : Option String) (statusCode : Option Nat)
deriving DecidableEq

/-- The pending-call table is modelled by its key set, as a list of
correlation ids; the resolve and reject callbacks stored against a key
are represented by reporting which id gets settled and how. -/
structure HandlerResult where
  queue : List String
  settled : Option (String × Settlement)
  posted : List OutMessage
deriving DecidableEq

/-- How a matched resp message settles its pending call: an error field
rejects with a reconstructed error carrying the code and statusCode
only when each is truthy; otherwise the call resolves with the response
payload. -/
def respSettlement (m : InMessage) : Settlement :=
  if strTruthy m.error then
    .rejected (m.error.getD "")
      (if strTruthy m.code then m.code else none)
      (if natTruthy m.statusCode then m.statusCode else none)
  else .resolved m.response

/-- The parent-port message handler: a resp bearing a truthy mid that is
a key of the pending-call table clears the timer, removes the entry and
settles the call; a call with a truthy mid is dispatched to onCommand
(which only logs Unhandled command and resolves with undefined) and a
resp is posted back; everything else is ignored. -/
def onParentMessage (queue : List String) (m : InMessage) : HandlerResult :=
  if m.cmd = some "resp" ∧ strTruthy m.mid ∧ (m.mid.getD "") ∈ queue then
    { queue := queue.filter (fun x => x != m.mid.getD ""),
      settled := some (m.mid.getD "", respSettlement m),
      posted := [] }
  else if m.cmd = some "call" ∧ strTruthy m.mid then
    { queue := queue, settled := none,
      posted := [{ cmd := "resp", mid := m.mid.getD "", response := none,
                   error := none, code := none, statusCode := none }] }
  else
    { queue := queue, settled := none, posted := [] }

/-- The error built by the timeout callback of call. -/
def timeoutSettlement : Settlement :=
  .rejected "Timeout waiting for command response [T4]" (some "Timeout") (some 504)

/-- The timer callback armed by call: it only rejects the promise with
the timeout error; the pending-call table is not touched (the source
has no delete in the timeout callback). -/
def onTimerFire (queue : List String) (_mid : String) : List String × Settlement :=
  (queue, timeoutSettlement)

/-- Registration of a fresh call in the pending-call table. -/
def callRegister (queue : List String) (mid : String) : List String :=
  if mid ∈ queue then queue else queue ++ [mid]

/-- The delay the timer is armed with: message.timeout when truthy,
otherwise the engine-wide timeout. -/
def effectiveTimeout (messageTimeout : Option Nat) (engineTimeout : Nat) : Nat :=
  if natTruthy messageTimeout then messageTimeout.getD 0 else engineTimeout

/-- The engine-wide default timeout, 10 seconds in milliseconds. -/
def DEFAULT_EENGINE_TIMEOUT : Nat := 10 * 1000

/-! ## Data submission end of stream (onData, lines 228-293) -/

/-- The fixed message size ceiling, 20 MiB. -/
def MAX_SIZE : Nat := 20 * 1024 * 1024

/-- Modelled from the spec: the external protocol engine (the
smtp-server library, configured with size MAX_SIZE) flags the stream as
size-exceeded exactly when the accumulated message bytes exceed the
configured ceiling; the handler only reads the flag. -/
def sizeExceeded (totalBytes : Nat) : Bool := decide (MAX_SIZE < totalBytes)

/-- The protocol-level envelope snapshot of the session. -/
structure SessionEnvelope where
  mailFrom : String
  rcptTo : List String
deriving DecidableEq

/-- Outcome of the external accountObject.queueMessage call. -/
inductive QueueOutcome
  | ok (messageId : String) (sendAt : Nat) (queueId : String)
  | failed (message : String)
deriving DecidableEq

/-- The final callback outcome of a data submission: accepted with the
confirmation text, or rejected with an error message and the protocol
responseCode when the error carries one. -/
inductive DataResult
  | accepted (confirmation : String)
  | rejected (message : String) (responseCode : Option Nat)
deriving DecidableEq

/-- Result of the end-of-stream handler, together with whether account
resolution and the queueing operation were invoked for this message. -/
structure DataEndResult where
  result : DataResult
  checkedAccount : Bool
  queued : Bool
deriving DecidableEq

/-- The end handler of the stream in onData: an exceeded size ceiling
rejects with the 552 oversize error before anything else; otherwise the
account is resolved (checkAccountData), the envelope is built from the
session and the accumulated chunks, and queueMessage is invoked, its
success acknowledged with the confirmation string and its failure
propagated. toIso stands for the external Date toISOString rendering. -/
def onDataEnd (load : String → LoadResult)
    (queueMessage : AccountHandle → SessionEnvelope → String → QueueOutcome)
    (toIso : Nat → String)
    (eeAuthEnabled : Bool) (cache : Option AccountHandle)
    (envelope : SessionEnvelope) (meta : MessageMeta)
    (chunks : List String) (totalBytes : Nat) : DataEndResult :=
  if sizeExceeded totalBytes then
    { result := .rejected "Message exceeds fixed maximum message size" (some 552),
      checkedAccount := false, queued := false }
  else
    let check := checkAccountData load eeAuthEnabled cache meta
    match check.outcome with
    | .err m c =>
      { result := .rejected m (some c), checkedAccount := true, queued := false }
    | .ok handle =>
      let raw := String.join chunks
      match queueMessage handle envelope raw with
      | .ok _ sendAt queueId =>
        { result := .accepted
            ("Message queued for delivery as " ++ queueId ++ " (" ++ toIso sendAt ++ ")"),
          checkedAccount := true, queued := true }
      | .failed m =>
        { result := .rejected m none, checkedAccount := true, queued := true }

/-! ## Disabled-command reconciliation (onConnect, lines 193-220) -/

/-- The JS Set constructor applied to a list: keeps the first occurrence
of each element, in order. -/
def jsSetDedup : List String → List String
  | [] => []
  | a :: l => a :: jsSetDedup (l.filter (fun x => x != a))
termination_by l => l.length
decreasing_by
  simp only [List.length_cons]
  exact Nat.lt_succ_of_le (List.length_filter_le _ _)

/-- The authentication command whose availability is toggled. -/
def AUTH : String := "AUTH"

/-- One onConnect reconciliation of server.options.disabledCommands
against the current smtpServerAuthEnabled setting: when authentication
is enabled and AUTH is still disabled, the list is rebuilt through a Set
with AUTH deleted; when authentication is disabled and AUTH is not in
the list, AUTH is pushed; otherwise the list is untouched. -/
def reconcileAuthCommand (authEnabled : Bool) (disabledCommands : List String) :
    List String :=
  if authEnabled && disabledCommands.contains AUTH then
    (jsSetDedup disabledCommands).filter (fun x => x != AUTH)
  else if !authEnabled && !disabledCommands.contains AUTH then
    disabledCommands ++ [AUTH]
  else
    disabledCommands

/-- The initial disabledCommands of serverOptions (line 183). -/
def initialDisabledCommands : List String := ["STARTTLS"]

/-- A sequence of connections, each reconciling the shared list against
the smtpServerAuthEnabled value observed for that connection. -/
def runOnConnects (toggles : List Bool) (disabledCommands : List String) : List String :=
  toggles.foldl (fun d b => reconcileAuthCommand b d) disabledCommands

/-! ## Concrete instances used by witnesses and counterexamples -/

/-- A load oracle that always throws. -/
def loadFailsC1 : String → LoadResult := fun _ => .failed

/-- A message carrying the routing header, for the C1 counterexample. -/
def msgC1 : MimeMessage :=
  { headers := [{ key := "x-ee-account", value := "acct1" },
                { key := "Subject", value := "hello" }],
    body := "body" }

/-- A load oracle that always throws, for the C5 counterexample. -/
def loadFailsC5 : String → LoadResult := fun _ => .failed

/-! ## Helper lemmas -/

theorem checkAccountData_directive (load : String → LoadResult)
    (cache : Option AccountHandle) (meta : MessageMeta) (v : String)
    (hv : meta.requestedAccount = some v) (hne : v ≠ "") :
    checkAccountData load false cache meta =
      { outcome := .ok { account := v },
        cache := if load v = .ok then some { account := v } else cache,
        logs := match load v with
                | .ok => ["Resolved requested account"]
                | .nodata => []
                | .failed => ["Failed resolving requested account"] } := by
  unfold checkAccountData
  rw [hv]
  cases hl : load v <;> simp [strTruthy, hne, hl]

theorem onParentMessage_resp_hit (queue : List String) (m : InMessage) (mid : String)
    (hc : m.cmd = some "resp") (hm : m.mid = some mid) (hne : mid ≠ "")
    (hq : mid ∈ queue) :
    onParentMessage queue m =
      { queue := queue.filter (fun x => x != mid),
        settled := some (mid, respSettlement m), posted := [] } := by
  have ht : strTruthy m.mid = true := by rw [hm]; simp [strTruthy, hne]
  have hg : m.mid.getD "" = mid := by rw [hm]; rfl
  unfold onParentMessage
  rw [if_pos ⟨hc, ht, hg ▸ hq⟩, hg]

theorem mem_jsSetDedup (x : String) (l : List String) :
    x ∈ jsSetDedup l ↔ x ∈ l := by
  induction l using jsSetDedup.induct with
  | case1 => simp [jsSetDedup]
  | case2 a l ih =>
    by_cases hxa : x = a
    · subst hxa; simp [jsSetDedup]
    · simp [jsSetDedup, ih, List.mem_filter, hxa]

theorem nodup_jsSetDedup (l : List String) : (jsSetDedup l).Nodup := by
  induction l using jsSetDedup.induct with
  | case1 => simp [jsSetDedup]
  | case2 a l ih =>
    rw [jsSetDedup, List.nodup_cons]
    refine ⟨?_, ih⟩
    intro hmem
    rw [mem_jsSetDedup] at hmem
    have := (List.mem_filter.mp hmem).2
    simp at this

theorem auth_mem_reconcile (b : Bool) (d : List String) :
    AUTH ∈ reconcileAuthCommand b d ↔ b = false := by
  cases b with
  | true =>
    by_cases hm : AUTH ∈ d
    · simp [reconcileAuthCommand, hm, List.mem_filter]
    · simp [reconcileAuthCommand, hm]
  | false =>
    by_cases hm : AUTH ∈ d
    · simp [reconcileAuthCommand, hm]
    · simp [reconcileAuthCommand, hm]

theorem nodup_reconcile (b : Bool) (d : List String) (hd : d.Nodup) :
    (reconcileAuthCommand b d).Nodup := by
  unfold reconcileAuthCommand
  split
  · exact (nodup_jsSetDedup d).filter _
  · split
    · rename_i h1 h2
      have hna : AUTH ∉ d := by
        intro hmem
        simp only [Bool.and_eq_true, Bool.not_eq_true'] at h2
        simp at h2
        exact h2.2 hmem
      simp [List.nodup_append, hd, hna]
    · exact hd

theorem runOnConnects_append_single (ts : List Bool) (b : Bool) (d : List String) :
    runOnConnects (ts ++ [b]) d = reconcileAuthCommand b (runOnConnects ts d) := by
  simp [runOnConnects, List.foldl_append]

theorem nodup_runOnConnects (ts : List Bool) (d : List String) (hd : d.Nodup) :
    (runOnConnects ts d).Nodup := by
  induction ts generalizing d with
  | nil => exact hd
  | cons b ts ih => exact ih _ (nodup_reconcile b d hd)

/-! ## Claim theorems -/

/-- C2 counterexample: the claim asserts that when the timeout timer
fires the pending entry is removed from the pending-call table; at the
concrete table holding the single pending id 7:1, firing the timer for
7:1 leaves the entry in the table, refuting the removal conjunct. -/
theorem C2_counterexample :
    ¬ ("7:1" ∉ (onTimerFire ["7:1"] "7:1").1) := by decide

/-- C2 (amended): when no response arrives and the timer fires, the call
rejects with an error whose code is Timeout and whose statusCode is 504,
and the timer delay is the per-message override when truthy, otherwise
the engine default; however the pending entry is NOT removed from the
pending-call table by the timeout callback (the table is unchanged). -/
theorem C2_timeout_rejects_entry_remains (queue : List String) (mid : String)
    (t d : Nat) (ht : t ≠ 0) :
    (onTimerFire queue mid).2 =
      Settlement.rejected "Timeout waiting for command response [T4]"
        (some "Timeout") (some 504) ∧
    (onTimerFire queue mid).1 = queue ∧
    effectiveTimeout (some t) d = t ∧
    effectiveTimeout none d = d := by
  refine ⟨rfl, rfl, ?_, rfl⟩
  simp [effectiveTimeout, natTruthy, ht]

/-- C2 witness: the amended theorem applied at a concrete pending table,
id, override 5000 and default 10000. -/
theorem C2_witness :
    (5000 ≠ 0) ∧
    ((onTimerFire ["9:1"] "9:1").2 =
       Settlement.rejected "Timeout waiting for command response [T4]"
         (some "Timeout") (some 504) ∧
     (onTimerFire ["9:1"] "9:1").1 = ["9:1"] ∧
     effectiveTimeout (some 5000) 10000 = 5000 ∧
     effectiveTimeout none 10000 = 10000) :=
  ⟨by decide, C2_timeout_rejects_entry_remains ["9:1"] "9:1" 5000 10000 (by decide)⟩

/-- C3: a submission whose accumulated size exceeds the 20 MiB ceiling
is rejected at end of stream with the oversize error carrying response
code 552, and neither account resolution nor the queueMessage operation
is invoked. -/
theorem C3_oversize_rejected (load : String → LoadResult)
    (queueMessage : AccountHandle → SessionEnvelope → String → QueueOutcome)
    (toIso : Nat → String) (eeAuthEnabled : Bool) (cache : Option AccountHandle)
    (envelope : SessionEnvelope) (meta : MessageMeta) (chunks : List String)
    (totalBytes : Nat) (h : MAX_SIZE < totalBytes) :
    onDataEnd load queueMessage toIso eeAuthEnabled cache envelope meta chunks totalBytes =
      { result := .rejected "Message exceeds fixed maximum message size" (some 552),
        checkedAccount := false, queued := false } := by
  unfold onDataEnd
  rw [if_pos]
  show sizeExceeded totalBytes = true
  simp only [sizeExceeded, decide_eq_true_eq]
  exact h

/-- C3 witness: a concrete 25 MiB submission is rejected with code 552
and neither resolution nor queueing happens. -/
theorem C3_witness :
    MAX_SIZE < 25 * 1024 * 1024 ∧
    onDataEnd (fun _ => .ok) (fun _ _ _ => .failed "offline") (fun _ => "")
        false none { mailFrom := "f", rcptTo := ["t"] } emptyMeta []
        (25 * 1024 * 1024) =
      { result := .rejected "Message exceeds fixed maximum message size" (some 552),
        checkedAccount := false, queued := false } :=
  ⟨by decide,
   C3_oversize_rejected (fun _ => .ok) (fun _ _ _ => .failed "offline") (fun _ => "")
     false none { mailFrom := "f", rcptTo := ["t"] } emptyMeta []
     (25 * 1024 * 1024) (by decide)⟩

/-- C4: with authentication not required, no routing directive recorded
and no cached account handle, checkAccountData throws the distinct
no-sender-account error with responseCode 451 (and neither caches a
handle nor logs anything). -/
theorem C4_no_sender_account (load : String → LoadResult) (meta : MessageMeta)
    (hreq : strTruthy meta.requestedAccount = false) :
    checkAccountData load false none meta =
      { outcome := .err "Sender account ID not provided, can not send mail" 451,
        cache := none, logs := [] } := by
  unfold checkAccountData
  simp [hreq]

/-- C4 witness: the theorem applied at the empty meta object and an
always-succeeding load oracle. -/
theorem C4_witness :
    strTruthy emptyMeta.requestedAccount = false ∧
    checkAccountData (fun _ => .ok) false none emptyMeta =
      { outcome := .err "Sender account ID not provided, can not send mail" 451,
        cache := none, logs := [] } :=
  ⟨by decide, C4_no_sender_account (fun _ => .ok) emptyMeta (by decide)⟩

/-- C9: when the first value of the routing header is the empty string,
processMessage removes the header lines but leaves the meta object
unchanged, so no requestedAccount is recorded and account resolution
behaves exactly as with no directive present. -/
theorem C9_empty_directive_ignored (load : String → LoadResult)
    (eeAuthEnabled : Bool) (cache : Option AccountHandle)
    (msg : MimeMessage) (meta0 : MessageMeta)
    (h : getFirst msg.headers = "") :
    (processMessage msg meta0).2 = meta0 ∧
    (processMessage msg meta0).1.headers = removeEeAccount msg.headers ∧
    (processMessage msg meta0).1.body = msg.body ∧
    checkAccountData load eeAuthEnabled cache (processMessage msg meta0).2 =
      checkAccountData load eeAuthEnabled cache meta0 := by
  unfold processMessage
  rw [h]
  simp

/-- C9 witness: a concrete message whose routing header is present with
an empty first value, alongside a second routing header with a value:
the meta object stays empty and both header lines are stripped. -/
theorem C9_witness :
    getFirst [⟨"x-ee-account", ""⟩, ⟨"X-EE-Account", "evil"⟩, ⟨"Subject", "hi"⟩] = "" ∧
    ((processMessage ⟨[⟨"x-ee-account", ""⟩, ⟨"X-EE-Account", "evil"⟩, ⟨"Subject", "hi"⟩], "b"⟩ emptyMeta).2 = emptyMeta ∧
     (processMessage ⟨[⟨"x-ee-account", ""⟩, ⟨"X-EE-Account", "evil"⟩, ⟨"Subject", "hi"⟩], "b"⟩ emptyMeta).1.headers =
       removeEeAccount [⟨"x-ee-account", ""⟩, ⟨"X-EE-Account", "evil"⟩, ⟨"Subject", "hi"⟩] ∧
     (processMessage ⟨[⟨"x-ee-account", ""⟩, ⟨"X-EE-Account", "evil"⟩, ⟨"Subject", "hi"⟩], "b"⟩ emptyMeta).1.body = "b" ∧
     checkAccountData (fun _ => .ok) false none
         (processMessage ⟨[⟨"x-ee-account", ""⟩, ⟨"X-EE-Account", "evil"⟩, ⟨"Subject", "hi"⟩], "b"⟩ emptyMeta).2 =
       checkAccountData (fun _ => .ok) false none emptyMeta) :=
  ⟨by decide,
   C9_empty_directive_ignored (fun _ => .ok) false none
     ⟨[⟨"x-ee-account", ""⟩, ⟨"X-EE-Account", "evil"⟩, ⟨"Subject", "hi"⟩], "b"⟩
     emptyMeta (by decide)⟩

/-- C10: a parent-port message whose cmd is resp but whose mid is absent
(or empty, hence falsy) or not a key of the pending-call table leaves
the table unchanged, settles nothing and posts nothing back. -/
theorem C10_unmatched_resp_ignored (queue : List String) (m : InMessage)
    (hc : m.cmd = some "resp")
    (h : strTruthy m.mid = false ∨ (m.mid.getD "") ∉ queue) :
    onParentMessage queue m = { queue := queue, settled := none, posted := [] } := by
  have h1 : ¬(m.cmd = some "resp" ∧ strTruthy m.mid ∧ (m.mid.getD "") ∈ queue) := by
    rintro ⟨-, ht, hq⟩
    rcases h with h | h
    · rw [h] at ht; cases ht
    · exact h hq
  have h2 : ¬(m.cmd = some "call" ∧ strTruthy m.mid) := by
    rintro ⟨hcall, -⟩
    rw [hc] at hcall
    exact absurd hcall (by decide)
  unfold onParentMessage
  rw [if_neg h1, if_neg h2]

/-- C10 witness: the theorem applied to a resp with an unknown mid and
to a resp with no mid at all, against a table holding the id 5. -/
theorem C10_witness :
    ((⟨some "resp", some "9", some "x", none, none, none⟩ : InMessage).cmd = some "resp") ∧
    onParentMessage ["5"] ⟨some "resp", some "9", some "x", none, none, none⟩ =
      { queue := ["5"], settled := none, posted := [] } ∧
    onParentMessage ["5"] ⟨some "resp", none, some "x", none, none, none⟩ =
      { queue := ["5"], settled := none, posted := [] } :=
  ⟨rfl,
   C10_unmatched_resp_ignored ["5"] ⟨some "resp", some "9", some "x", none, none, none⟩
     rfl (Or.inr (by decide)),
   C10_unmatched_resp_ignored ["5"] ⟨some "resp", none, some "x", none, none, none⟩
     rfl (Or.inl (by decide))⟩

/-- C1 counterexample: the claim asserts that with authentication
disabled and a nonempty routing header the resolved handle is cached on
the session; at the concrete message carrying x-ee-account acct1 and a
load oracle that throws, no handle is cached (the assignment in the
source precedes the try block, so the handle is still returned, but the
cache is only written on a successful load). -/
theorem C1_counterexample :
    ¬ ((checkAccountData loadFailsC1 false none (processMessage msgC1 emptyMeta).2).cache =
        some { account := "acct1" }) := by decide

/-- C1 (amended): with authentication disabled and a routing header
whose first value v is nonempty, processMessage records v as the
requested account, strips every routing-header line from the
reassembled message and preserves the other headers and the body;
checkAccountData then returns a handle whose account identifier is v,
and caches that handle on the session provided the external account
load for v returns data. -/
theorem C1_route_resolve_strip (load : String → LoadResult)
    (cache : Option AccountHandle) (msg : MimeMessage) (meta0 : MessageMeta)
    (v : String) (hv : getFirst msg.headers = v) (hne : v ≠ "") :
    (processMessage msg meta0).2.requestedAccount = some v ∧
    (processMessage msg meta0).1.headers = removeEeAccount msg.headers ∧
    ((processMessage msg meta0).1.headers.all (fun h => !headerKeyMatches h.key)) = true ∧
    (processMessage msg meta0).1.body = msg.body ∧
    (checkAccountData load false cache (processMessage msg meta0).2).outcome =
      .ok { account := v } ∧
    (load v = .ok →
      (checkAccountData load false cache (processMessage msg meta0).2).cache =
        some { account := v }) := by
  have hreq : (processMessage msg meta0).2.requestedAccount = some v := by
    unfold processMessage
    rw [hv]
    simp [hne]
  have hchk := checkAccountData_directive load cache (processMessage msg meta0).2 v hreq hne
  refine ⟨hreq, rfl, ?_, rfl, ?_, ?_⟩
  · rw [List.all_eq_true]
    intro h hh
    have hmem : h ∈ List.filter (fun h => !headerKeyMatches h.key) msg.headers := hh
    exact (List.mem_filter.mp hmem).2
  · rw [hchk]
  · intro hok
    rw [hchk]
    simp [hok]

/-- C1 witness: the amended theorem at a concrete two-header message
with x-ee-account acct1 and a load oracle that succeeds: the value is
recorded, the handle for acct1 is returned and cached, and the output
message has only the Subject header left. -/
theorem C1_witness :
    getFirst msgC1.headers = "acct1" ∧ "acct1" ≠ "" ∧
    ((processMessage msgC1 emptyMeta).2.requestedAccount = some "acct1" ∧
     (processMessage msgC1 emptyMeta).1.headers = removeEeAccount msgC1.headers ∧
     ((processMessage msgC1 emptyMeta).1.headers.all (fun h => !headerKeyMatches h.key)) = true ∧
     (processMessage msgC1 emptyMeta).1.body = msgC1.body ∧
     (checkAccountData (fun _ => .ok) false none (processMessage msgC1 emptyMeta).2).outcome =
       .ok { account := "acct1" } ∧
     ((fun (_ : String) => LoadResult.ok) "acct1" = .ok →
       (checkAccountData (fun _ => .ok) false none (processMessage msgC1 emptyMeta).2).cache =
         some { account := "acct1" })) :=
  ⟨by decide, by decide,
   C1_route_resolve_strip (fun _ => .ok) none msgC1 emptyMeta "acct1" (by decide) (by decide)⟩

/-- C5 counterexample: the claim asserts that with authentication
disabled, a directive present and a failing account load,
checkAccountData throws the Failed-to-load-account error; at the
concrete directive acct2 and a throwing load oracle, the outcome is the
returned handle instead, refuting the claim. -/
theorem C5_counterexample :
    ¬ ((checkAccountData loadFailsC5 false none { requestedAccount := some "acct2" }).outcome =
        CheckOutcome.err "Failed to load account" 451) := by decide

/-- C5 (amended): with authentication disabled and a directive present,
a failing account load does not cache a handle and logs the failure
when the load throws (a load returning no data logs nothing), but
checkAccountData then returns the unvalidated handle constructed for
the directive identity rather than reaching the Failed-to-load-account
fallback, because the handle assignment precedes the try block. -/
theorem C5_load_failure_returns_unvalidated (load : String → LoadResult)
    (cache : Option AccountHandle) (meta : MessageMeta) (v : String)
    (hv : meta.requestedAccount = some v) (hne : v ≠ "")
    (hfail : load v ≠ .ok) :
    (checkAccountData load false cache meta).outcome = .ok { account := v } ∧
    (checkAccountData load false cache meta).cache = cache ∧
    (checkAccountData load false cache meta).logs =
      (if load v = .failed then ["Failed resolving requested account"] else []) := by
  rw [checkAccountData_directive load cache meta v hv hne]
  cases hl : load v with
  | ok => exact absurd hl hfail
  | nodata => simp [hl]
  | failed => simp [hl]

/-- C5 witness: the amended theorem at the concrete directive acct2 and
a throwing load oracle: the unvalidated handle is returned, nothing is
cached, and the resolution failure is logged. -/
theorem C5_witness :
    ({ requestedAccount := some "acct2" } : MessageMeta).requestedAccount = some "acct2" ∧
    "acct2" ≠ "" ∧ loadFailsC5 "acct2" ≠ .ok ∧
    ((checkAccountData loadFailsC5 false none { requestedAccount := some "acct2" }).outcome =
       .ok { account := "acct2" } ∧
     (checkAccountData loadFailsC5 false none { requestedAccount := some "acct2" }).cache = none ∧
     (checkAccountData loadFailsC5 false none { requestedAccount := some "acct2" }).logs =
       (if loadFailsC5 "acct2" = .failed then ["Failed resolving requested account"] else [])) :=
  ⟨rfl, by decide, by decide,
   C5_load_failure_returns_unvalidated loadFailsC5 none { requestedAccount := some "acct2" }
     "acct2" rfl (by decide) (by decide)⟩

/-- C6: two pending calls with distinct correlation ids settle
independently: each resp settles exactly the call bearing its own id
with its own payload (resolution or rejection), in whichever order the
two responses arrive, and the final pending-call table is the same
either way. -/
theorem C6_concurrent_calls_independent (queue : List String) (r1 r2 : InMessage)
    (m1 m2 : String)
    (hc1 : r1.cmd = some "resp") (hc2 : r2.cmd = some "resp")
    (hm1 : r1.mid = some m1) (hm2 : r2.mid = some m2)
    (h1ne : m1 ≠ "") (h2ne : m2 ≠ "")
    (hq1 : m1 ∈ queue) (hq2 : m2 ∈ queue) (hne : m1 ≠ m2) :
    (onParentMessage queue r1).settled = some (m1, respSettlement r1) ∧
    (onParentMessage (onParentMessage queue r1).queue r2).settled =
      some (m2, respSettlement r2) ∧
    (onParentMessage queue r2).settled = some (m2, respSettlement r2) ∧
    (onParentMessage (onParentMessage queue r2).queue r1).settled =
      some (m1, respSettlement r1) ∧
    (onParentMessage (onParentMessage queue r1).queue r2).queue =
      (onParentMessage (onParentMessage queue r2).queue r1).queue := by
  have hq2f : m2 ∈ queue.filter (fun x => x != m1) :=
    List.mem_filter.mpr ⟨hq2, by simp [Ne.symm hne]⟩
  have hq1f : m1 ∈ queue.filter (fun x => x != m2) :=
    List.mem_filter.mpr ⟨hq1, by simp [hne]⟩
  have e1 := onParentMessage_resp_hit queue r1 m1 hc1 hm1 h1ne hq1
  have e2 := onParentMessage_resp_hit queue r2 m2 hc2 hm2 h2ne hq2
  have e12 := onParentMessage_resp_hit (queue.filter (fun x => x != m1)) r2 m2 hc2 hm2 h2ne hq2f
  have e21 := onParentMessage_resp_hit (queue.filter (fun x => x != m2)) r1 m1 hc1 hm1 h1ne hq1f
  simp only [e1, e2, e12, e21]
  refine ⟨trivial, trivial, trivial, trivial, ?_⟩
  show (queue.filter (fun x => x != m1)).filter (fun x => x != m2) =
    (queue.filter (fun x => x != m2)).filter (fun x => x != m1)
  rw [List.filter_filter, List.filter_filter]
  congr 1
  funext x
  exact Bool.and_comm _ _

/-- C6 witness: two concrete pending calls 1 and 2; the resp for 2 is a
rejection and the resp for 1 a resolution, delivered in both orders,
each settling only its own call, with the same final table. -/
theorem C6_witness :
    ((⟨some "resp", some "1", some "a", none, none, none⟩ : InMessage).cmd = some "resp") ∧
    ((onParentMessage ["1", "2"] ⟨some "resp", some "1", some "a", none, none, none⟩).settled =
       some ("1", respSettlement ⟨some "resp", some "1", some "a", none, none, none⟩) ∧
     (onParentMessage (onParentMessage ["1", "2"] ⟨some "resp", some "1", some "a", none, none, none⟩).queue
        ⟨some "resp", some "2", none, some "boom", some "E", some 500⟩).settled =
       some ("2", respSettlement ⟨some "resp", some "2", none, some "boom", some "E", some 500⟩) ∧
     (onParentMessage ["1", "2"] ⟨some "resp", some "2", none, some "boom", some "E", some 500⟩).settled =
       some ("2", respSettlement ⟨some "resp", some "2", none, some "boom", some "E", some 500⟩) ∧
     (onParentMessage (onParentMessage ["1", "2"] ⟨some "resp", some "2", none, some "boom", some "E", some 500⟩).queue
        ⟨some "resp", some "1", some "a", none, none, none⟩).settled =
       some ("1", respSettlement ⟨some "resp", some "1", some "a", none, none, none⟩) ∧
     (onParentMessage (onParentMessage ["1", "2"] ⟨some "resp", some "1", some "a", none, none, none⟩).queue
        ⟨some "resp", some "2", none, some "boom", some "E", some 500⟩).queue =
     (onParentMessage (onParentMessage ["1", "2"] ⟨some "resp", some "2", none, some "boom", some "E", some 500⟩).queue
        ⟨some "resp", some "1", some "a", none, none, none⟩).queue) :=
  ⟨rfl,
   C6_concurrent_calls_independent ["1", "2"]
     ⟨some "resp", some "1", some "a", none, none, none⟩
     ⟨some "resp", some "2", none, some "boom", some "E", some 500⟩
     "1" "2" rfl rfl rfl rfl (by decide) (by decide) (by decide) (by decide) (by decide)⟩

/-- C7: starting from the initial disabled-command list, any nonempty
sequence of onConnect reconciliations leaves a list without duplicate
entries that contains AUTH exactly when the last observed
authentication-enabled setting was false (authentication not
required). -/
theorem C7_disabled_commands_reconciled (ts : List Bool) (b : Bool) :
    (runOnConnects (ts ++ [b]) initialDisabledCommands).Nodup ∧
    (AUTH ∈ runOnConnects (ts ++ [b]) initialDisabledCommands ↔ b = false) := by
  constructor
  · exact nodup_runOnConnects _ _ (by simp [initialDisabledCommands])
  · rw [runOnConnects_append_single]
    exact auth_mem_reconcile b _

/-- C8: when authentication is required for the session, the result of
checkAccountData is the same function of the session cache whatever the
captured routing-directive value was (the meta object is never read on
that path), while processMessage still strips every routing-header line
from the reassembled message. -/
theorem C8_auth_required_ignores_directive (load : String → LoadResult)
    (cache : Option AccountHandle) (meta1 meta2 : MessageMeta)
    (msg : MimeMessage) (meta0 : MessageMeta) :
    checkAccountData load true cache meta1 = checkAccountData load true cache meta2 ∧
    ((processMessage msg meta0).1.headers.all (fun h => !headerKeyMatches h.key)) = true := by
  constructor
  · unfold checkAccountData
    simp
  · rw [List.all_eq_true]
    intro h hh
    have hmem : h ∈ List.filter (fun h => !headerKeyMatches h.key) msg.headers := hh
    exact (List.mem_filter.mp hmem).2

end SmtpWorker
